import Mathlib

/-
  Shallow embedding of the Odoo-Magento synchronization bridge
  (src/app/middleware/sync.py, src/app/odoo/client.py,
  src/app/magento/client.py).

  Remote systems are modelled as environments of pure response
  functions: each environment field gives the value a client method
  call returns (client methods in the source already convert every
  remote exception into a None / False / empty-list result at their
  own boundary, so an `Option`-valued response field covers both
  "not found" and "remote failure", exactly as the callers see it).
  Every synchronizer-level operation additionally returns the list of
  client calls it issued, in order, so that claims about which remote
  calls are or are not made can be stated.

  Numeric amounts (prices, quantities) are modelled as rationals;
  identifiers and skus as strings, with the empty string playing the
  role of a Python-falsy sku / id. Python dict `.get` with a default
  is modelled by `Option` fields read with `getD`.
-/

namespace OdooMagento

/-- Canonical product record produced by `OdooClient.get_product_by_sku`
and `OdooClient.get_all_products` (odoo/client.py lines 80-88):
`promo_price` is `None` when the `lst_price` attribute is missing. -/
structure OdooProduct where
  id : Nat
  name : String
  sku : String
  retail_price : ℚ
  promo_price : Option ℚ
  quantity : ℚ
  type : String
deriving DecidableEq

/-- Opaque Magento product payload: `ProductSynchronizer.sync_product`
only tests the payload for presence, never reads a field. -/
structure MagentoProduct where
  sku : String
deriving DecidableEq

/-- One client call issued by the product synchronizer, with its
arguments. -/
inductive ProductCall where
  | odooGetProduct (sku : String)
  | magentoGetProduct (sku : String)
  | magentoUpdateStock (sku : String) (quantity : ℚ)
  | magentoUpdatePrice (sku : String) (price : ℚ)
  | magentoUpdateSpecialPrice (sku : String) (special_price : ℚ)
deriving DecidableEq

/-- The sku argument a product-sync client call was issued with. -/
def ProductCall.sku : ProductCall → String
  | .odooGetProduct s => s
  | .magentoGetProduct s => s
  | .magentoUpdateStock s _ => s
  | .magentoUpdatePrice s _ => s
  | .magentoUpdateSpecialPrice s _ => s

/-- Whether a product-sync call is a call to the storefront (Magento)
client rather than to the ERP (Odoo) client. -/
def ProductCall.isMagento : ProductCall → Bool
  | .odooGetProduct _ => false
  | _ => true

/-- Whether a product-sync call is one of the three Magento update
operations (stock, price, special price). -/
def ProductCall.isUpdateCall : ProductCall → Bool
  | .magentoUpdateStock _ _ => true
  | .magentoUpdatePrice _ _ => true
  | .magentoUpdateSpecialPrice _ _ => true
  | _ => false

/-- Environment of client-method responses used by
`ProductSynchronizer`.  `odooAllProducts` is the outcome of the raw
`search`/`browse` pass inside `get_all_products` (`none` models a
remote exception, which that method converts to `[]`). -/
structure SyncEnv where
  odooGetProductBySku : String → Option OdooProduct
  odooAllProducts : Option (List OdooProduct)
  magentoGetProductBySku : String → Option MagentoProduct
  magentoUpdateStock : String → ℚ → Bool
  magentoUpdatePrice : String → ℚ → Bool
  magentoUpdateSpecialPrice : String → ℚ → Bool

/-- Result record of `ProductSynchronizer.sync_product`. -/
structure SyncResult where
  success : Bool
  message : String
  sku : String
deriving DecidableEq

/-- The guard of sync.py line 66:
`odoo_product["promo_price"] and odoo_product["promo_price"] < odoo_product["retail_price"]`.
A `None` or zero promo price is Python-falsy. -/
def promoActive (p : OdooProduct) : Bool :=
  match p.promo_price with
  | none => false
  | some q => decide (q ≠ 0) && decide (q < p.retail_price)

/-- `ProductSynchronizer.sync_product` (sync.py lines 23-98), paired
with the ordered list of client calls it issues. -/
def sync_product (env : SyncEnv) (sku : String) :
    SyncResult × List ProductCall :=
  match env.odooGetProductBySku sku with
  | none =>
      ({ success := false
         message := "Product with SKU " ++ sku ++ " not found in Odoo"
         sku := sku },
       [ProductCall.odooGetProduct sku])
  | some p =>
      match env.magentoGetProductBySku sku with
      | none =>
          ({ success := false
             message := "Product with SKU " ++ sku ++ " not found in Magento"
             sku := sku },
           [ProductCall.odooGetProduct sku, ProductCall.magentoGetProduct sku])
      | some _ =>
          let stock_result := env.magentoUpdateStock sku p.quantity
          let price_result := env.magentoUpdatePrice sku p.retail_price
          let special_price_result :=
            if promoActive p then
              env.magentoUpdateSpecialPrice sku (p.promo_price.getD 0)
            else true
          let calls :=
            [ProductCall.odooGetProduct sku,
             ProductCall.magentoGetProduct sku,
             ProductCall.magentoUpdateStock sku p.quantity,
             ProductCall.magentoUpdatePrice sku p.retail_price] ++
            (if promoActive p then
              [ProductCall.magentoUpdateSpecialPrice sku (p.promo_price.getD 0)]
             else [])
          if stock_result && price_result && special_price_result then
            ({ success := true
               message := "Product " ++ sku ++ " synchronized successfully"
               sku := sku }, calls)
          else
            let failed_operations :=
              (if stock_result then [] else ["stock update"]) ++
              (if price_result then [] else ["price update"]) ++
              (if special_price_result then [] else ["special price update"])
            ({ success := false
               message := "Product " ++ sku ++ " synchronization failed for: " ++
                 String.intercalate ", " failed_operations
               sku := sku }, calls)

/-- Whether a product-sync trace contains a special-price update call. -/
def attemptsSpecial (trace : List ProductCall) : Bool :=
  trace.any fun c =>
    match c with
    | ProductCall.magentoUpdateSpecialPrice _ _ => true
    | _ => false

/-- `OdooClient.get_all_products` (odoo/client.py lines 93-125): a
remote failure yields `[]`; the Python guard `if limit:` only
truncates when `limit` is present and nonzero (0 is falsy). -/
def get_all_products (env : SyncEnv) (limit : Option Nat) :
    List OdooProduct :=
  match env.odooAllProducts with
  | none => []
  | some ps =>
      match limit with
      | none => ps
      | some n => if n = 0 then ps else ps.take n

/-- Aggregate tally kept by `sync_all_products` (sync.py lines 111-116). -/
structure BatchResults where
  total : Nat
  successful : Nat
  failed : Nat
  failed_skus : List String
deriving DecidableEq

/-- Outer result record of `sync_all_products`. -/
structure SyncAllReturn where
  success : Bool
  message : String
  results : BatchResults
deriving DecidableEq

/-- Loop body of `sync_all_products` (sync.py lines 118-133): a
Python-falsy (empty) sku is tallied as a failure without invoking
`sync_product` and without being appended to `failed_skus`. -/
def sync_all_step (env : SyncEnv)
    (acc : BatchResults × List ProductCall) (product : OdooProduct) :
    BatchResults × List ProductCall :=
  if product.sku = "" then
    ({ acc.1 with failed := acc.1.failed + 1 }, acc.2)
  else
    let out := sync_product env product.sku
    if out.1.success then
      ({ acc.1 with successful := acc.1.successful + 1 }, acc.2 ++ out.2)
    else
      ({ acc.1 with
          failed := acc.1.failed + 1
          failed_skus := acc.1.failed_skus ++ [product.sku] }, acc.2 ++ out.2)

/-- `ProductSynchronizer.sync_all_products` (sync.py lines 100-145),
paired with the ordered list of client calls the whole batch issues.
The fixed 500ms inter-item sleep has no observable effect in this
model and is omitted. -/
def sync_all_products (env : SyncEnv) :
    SyncAllReturn × List ProductCall :=
  let products := get_all_products env none
  let z := products.foldl (sync_all_step env)
    ({ total := products.length, successful := 0, failed := 0,
       failed_skus := [] }, [])
  ({ success := true
     message := "Synchronized " ++ toString z.1.successful ++
       " products successfully, " ++ toString z.1.failed ++ " failed"
     results := z.1 }, z.2)

/-- Python `str.upper()` on the ASCII identifiers this system
handles: uppercase every character. -/
def pyUpper (s : String) : String :=
  ⟨s.data.map Char.toUpper⟩

/-- Python `str.strip()`: remove whitespace from both ends. -/
def pyStrip (s : String) : String :=
  ⟨((s.data.dropWhile Char.isWhitespace).reverse.dropWhile
      Char.isWhitespace).reverse⟩

/-- Token-caching state of `MagentoClient` (magento/client.py lines
25-27): `token`, `token_expiry` and `token_lifetime` instance fields.
Time is modelled as a rational (`time.time()`). -/
structure MagentoAuth where
  token : Option String
  token_expiry : ℚ
  token_lifetime : ℚ
deriving DecidableEq

/-- The state set up by `MagentoClient.__init__`: no token, expiry 0,
default lifetime 3600 seconds. -/
def initMagentoAuth : MagentoAuth :=
  { token := none, token_expiry := 0, token_lifetime := 3600 }

/-- Python truthiness of the cached token: `None` and the empty
string are falsy. -/
def tokenTruthy : Option String → Bool
  | none => false
  | some s => decide (s ≠ "")

/-- `MagentoClient._get_token` (magento/client.py lines 29-60).
`exchange` is the outcome of the POST to the token endpoint (`none`
models a `RequestException`).  Returns the token handed to the
caller, the updated client state, and whether a credential-exchange
call was issued. -/
def get_token (st : MagentoAuth) (current_time : ℚ)
    (exchange : Option String) :
    Option String × MagentoAuth × Bool :=
  if tokenTruthy st.token = true ∧ current_time < st.token_expiry then
    (st.token, st, false)
  else
    match exchange with
    | some tok =>
        (some tok,
         { st with token := some tok
                   token_expiry := current_time + st.token_lifetime },
         true)
    | none => (none, { st with token := none }, true)

/-- Billing-address sub-record of a Magento order payload; every key
may be absent, and `street` may be a list of lines or a single
string. -/
structure BillingAddress where
  firstname : Option String
  lastname : Option String
  telephone : Option String
  street : Option (List String ⊕ String)
  city : Option String
  postcode : Option String
  country_id : Option String
deriving DecidableEq

/-- The empty dict that `magento_order.get("billing_address", {})`
falls back to. -/
def emptyBilling : BillingAddress :=
  { firstname := none, lastname := none, telephone := none,
    street := none, city := none, postcode := none, country_id := none }

/-- One entry of a Magento order's `items` list. -/
structure OrderItem where
  sku : Option String
  qty_ordered : Option ℚ
  price : Option ℚ
deriving DecidableEq

/-- Magento order payload, restricted to the keys the synchronizer
reads. -/
structure MagentoOrder where
  entity_id : Option String
  billing_address : Option BillingAddress
  customer_email : Option String
  items : Option (List OrderItem)
deriving DecidableEq

/-- A page returned by `GET /rest/V1/orders`; `items` is `none` when
the response carries no `items` key. -/
structure OrdersPage where
  items : Option (List MagentoOrder)
deriving DecidableEq

/-- Customer data assembled by `OrderSynchronizer.sync_order`
(sync.py lines 186-194). -/
structure CustomerData where
  name : String
  email : String
  phone : String
  street : String
  city : String
  zip : String
  country_code : String
deriving DecidableEq

/-- Order line assembled by `OrderSynchronizer.sync_order`
(sync.py lines 197-203). -/
structure OrderLine where
  sku : String
  quantity : ℚ
  price_unit : ℚ
deriving DecidableEq

/-- Field-value record passed to `res.partner` `create`
(odoo/client.py lines 153-161). -/
structure PartnerVals where
  name : String
  email : String
  phone : String
  street : String
  city : String
  zip : String
  country_id : Option Nat
deriving DecidableEq

/-- One `(0, 0, {...})` triple of the `order_line` list
(odoo/client.py lines 174-178). -/
structure SaleLineVals where
  product_id : Nat
  product_uom_qty : ℚ
  price_unit : ℚ
deriving DecidableEq

/-- Field-value record passed to `sale.order` `create`
(odoo/client.py lines 185-189). -/
structure SaleOrderVals where
  partner_id : Nat
  client_order_ref : String
  order_line : List SaleLineVals
deriving DecidableEq

/-- One remote Odoo operation issued by `create_sale_order`, with its
arguments. -/
inductive OdooCall where
  | searchPartner (email : String)
  | searchCountry (code : String)
  | createPartner (vals : PartnerVals)
  | searchProduct (sku : String)
  | createSaleOrder (vals : SaleOrderVals)
deriving DecidableEq

/-- Environment of remote Odoo responses used by
`OdooClient.create_sale_order` and `_get_country_id`: each search
field gives the list of matching record ids, each create field the id
of the freshly created record. -/
structure OdooEnv where
  searchPartnerByEmail : String → List Nat
  createPartner : PartnerVals → Nat
  searchProductBySku : String → List Nat
  searchCountryByCode : String → List Nat
  createSaleOrder : SaleOrderVals → Nat

/-- `OdooClient._get_country_id` (odoo/client.py lines 198-218):
uppercases the code, searches `res.country`, returns the first match
or `none`. -/
def get_country_id (env : OdooEnv) (country_code : String) :
    Option Nat × List OdooCall :=
  ((env.searchCountryByCode (pyUpper country_code)).head?,
   [OdooCall.searchCountry (pyUpper country_code)])

/-- The `res.partner` field-value record that `create_sale_order`
builds for a new customer (odoo/client.py lines 153-161). -/
def partnerValsOf (env : OdooEnv) (customer_data : CustomerData) :
    PartnerVals :=
  { name := customer_data.name
    email := customer_data.email
    phone := customer_data.phone
    street := customer_data.street
    city := customer_data.city
    zip := customer_data.zip
    country_id := (get_country_id env customer_data.country_code).1 }

/-- One iteration of the line loop of `create_sale_order`
(odoo/client.py lines 165-178): search `product.product` for the
line's sku; an empty search drops the line, otherwise the first match
becomes the line's `product_id`. -/
def resolveLine (env : OdooEnv) (line : OrderLine) :
    Option SaleLineVals :=
  match env.searchProductBySku line.sku with
  | [] => none
  | pid :: _ =>
      some { product_id := pid
             product_uom_qty := line.quantity
             price_unit := line.price_unit }

/-- `OdooClient.create_sale_order` (odoo/client.py lines 127-196),
paired with the ordered list of remote calls it issues: look up the
partner by email (creating it first, before any line is resolved, if
the search is empty), resolve each line sku dropping unresolvable
ones, refuse to create an order with zero resolved lines. -/
def create_sale_order (env : OdooEnv) (customer_data : CustomerData)
    (order_lines : List OrderLine) (external_order_id : String) :
    Option Nat × List OdooCall :=
  let psearch := env.searchPartnerByEmail customer_data.email
  let step1 : Nat × List OdooCall :=
    match psearch with
    | pid :: _ => (pid, [OdooCall.searchPartner customer_data.email])
    | [] =>
        let vals := partnerValsOf env customer_data
        (env.createPartner vals,
         [OdooCall.searchPartner customer_data.email] ++
           (get_country_id env customer_data.country_code).2 ++
           [OdooCall.createPartner vals])
  let line_calls := order_lines.map
    (fun line => OdooCall.searchProduct line.sku)
  let sale_order_lines := order_lines.filterMap (resolveLine env)
  if sale_order_lines.isEmpty then
    (none, step1.2 ++ line_calls)
  else
    let vals : SaleOrderVals :=
      { partner_id := step1.1
        client_order_ref := external_order_id
        order_line := sale_order_lines }
    (some (env.createSaleOrder vals),
     step1.2 ++ line_calls ++ [OdooCall.createSaleOrder vals])

/-- Environment of client-method responses used by
`OrderSynchronizer`: the Magento order queries plus the Odoo
environment that `create_sale_order` runs against. -/
structure OrderEnv where
  magGetOrders : Nat → Nat → Option String → Option OrdersPage
  magGetOrderById : String → Option MagentoOrder
  odoo : OdooEnv

/-- `MagentoClient.get_orders` (magento/client.py lines 201-226): a
paginated, optionally status-filtered query; `none` models a failed
request. -/
def get_orders (env : OrderEnv) (page_size current_page : Nat)
    (status : Option String) : Option OrdersPage :=
  env.magGetOrders page_size current_page status

/-- The items a page response contributes in `get_new_orders`: a
failed query or a page without an `items` key contributes nothing. -/
def pageItems : Option OrdersPage → List MagentoOrder
  | none => []
  | some pg => pg.items.getD []

/-- `MagentoClient.get_new_orders` (magento/client.py lines 241-260):
the "pending" query results followed by the "processing" query
results. -/
def get_new_orders (env : OrderEnv) : List MagentoOrder :=
  pageItems (get_orders env 10 1 (some "pending")) ++
    pageItems (get_orders env 10 1 (some "processing"))

/-- The street extraction of sync.py line 190:
`billing_address.get("street", [""])[0] if isinstance(..., list) else
billing_address.get("street", "")`.  An absent key yields `""`; a
present empty list raises `IndexError` (modelled as `none`), which
the surrounding `except` turns into an error result. -/
def extract_street (b : BillingAddress) : Option String :=
  match b.street with
  | none => some ""
  | some (Sum.inl lines) => lines.head?
  | some (Sum.inr s) => some s

/-- The customer-data extraction of `OrderSynchronizer.sync_order`
(sync.py lines 185-194); `none` models the `IndexError` of an empty
street list. -/
def extract_customer_data (o : MagentoOrder) : Option CustomerData :=
  let billing := o.billing_address.getD emptyBilling
  match extract_street billing with
  | none => none
  | some st =>
      some
        { name := pyStrip ((billing.firstname.getD "") ++ " " ++
            (billing.lastname.getD ""))
          email := o.customer_email.getD ""
          phone := billing.telephone.getD ""
          street := st
          city := billing.city.getD ""
          zip := billing.postcode.getD ""
          country_code := billing.country_id.getD "" }

/-- Result record of `OrderSynchronizer.sync_order`. -/
structure OrderSyncResult where
  success : Bool
  message : String
  orders_synced : List String
deriving DecidableEq

/-- `OrderSynchronizer.sync_order` (sync.py lines 164-230). -/
def sync_order (env : OrderEnv) (magento_order_id : String) :
    OrderSyncResult :=
  match env.magGetOrderById magento_order_id with
  | none =>
      { success := false
        message := "Order with ID " ++ magento_order_id ++
          " not found in Magento"
        orders_synced := [] }
  | some o =>
      match extract_customer_data o with
      | none =>
          { success := false
            message := "Error synchronizing order " ++ magento_order_id ++
              ": list index out of range"
            orders_synced := [] }
      | some customer_data =>
          let order_lines := (o.items.getD []).map fun item =>
            ({ sku := item.sku.getD ""
               quantity := item.qty_ordered.getD 1
               price_unit := item.price.getD 0 } : OrderLine)
          match (create_sale_order env.odoo customer_data order_lines
              magento_order_id).1 with
          | some oid =>
              { success := true
                message := "Order " ++ magento_order_id ++
                  " synchronized successfully to Odoo order " ++ toString oid
                orders_synced := [magento_order_id] }
          | none =>
              { success := false
                message := "Failed to create Odoo order for Magento order " ++
                  magento_order_id
                orders_synced := [] }

/-- Aggregate tally kept by `sync_new_orders` (sync.py lines 243-249). -/
structure OrderBatchResults where
  total : Nat
  successful : Nat
  failed : Nat
  failed_orders : List String
  synced_orders : List String
deriving DecidableEq

/-- Outer result record of `sync_new_orders`. -/
structure SyncNewReturn where
  success : Bool
  message : String
  orders_synced : List String
  results : OrderBatchResults
deriving DecidableEq

/-- Loop body of `sync_new_orders` (sync.py lines 251-267): a
Python-falsy (empty) entity id is tallied as a failure without
invoking `sync_order`. -/
def sync_new_step (env : OrderEnv) (acc : OrderBatchResults)
    (order : MagentoOrder) : OrderBatchResults :=
  let order_id := order.entity_id.getD ""
  if order_id = "" then
    { acc with failed := acc.failed + 1 }
  else
    let result := sync_order env order_id
    if result.success then
      { acc with successful := acc.successful + 1
                 synced_orders := acc.synced_orders ++ [order_id] }
    else
      { acc with failed := acc.failed + 1
                 failed_orders := acc.failed_orders ++ [order_id] }

/-- `OrderSynchronizer.sync_new_orders` (sync.py lines 232-281).  The
fixed 500ms inter-item sleep has no observable effect in this model
and is omitted. -/
def sync_new_orders (env : OrderEnv) : SyncNewReturn :=
  let new_orders := get_new_orders env
  let res := new_orders.foldl (sync_new_step env)
    { total := new_orders.length, successful := 0, failed := 0,
      failed_orders := [], synced_orders := [] }
  { success := true
    message := "Synchronized " ++ toString res.successful ++
      " orders successfully, " ++ toString res.failed ++ " failed"
    orders_synced := res.synced_orders
    results := res }

/-! Helper lemmas shared by several claims. -/

/-- Full behaviour of `sync_product` when both systems return a
product: the exact ordered call trace, the success condition, and the
failure message. -/
theorem sync_product_found_behavior (env : SyncEnv) (sku : String)
    (p : OdooProduct) (m : MagentoProduct)
    (ho : env.odooGetProductBySku sku = some p)
    (hm : env.magentoGetProductBySku sku = some m) :
    (sync_product env sku).2 =
      [ProductCall.odooGetProduct sku,
       ProductCall.magentoGetProduct sku,
       ProductCall.magentoUpdateStock sku p.quantity,
       ProductCall.magentoUpdatePrice sku p.retail_price] ++
      (if promoActive p then
        [ProductCall.magentoUpdateSpecialPrice sku (p.promo_price.getD 0)]
       else []) ∧
    (sync_product env sku).1.success =
      (env.magentoUpdateStock sku p.quantity &&
       env.magentoUpdatePrice sku p.retail_price &&
       (if promoActive p then
         env.magentoUpdateSpecialPrice sku (p.promo_price.getD 0)
        else true)) ∧
    ((sync_product env sku).1.success = false →
      (sync_product env sku).1.message =
        "Product " ++ sku ++ " synchronization failed for: " ++
          String.intercalate ", "
            ((if env.magentoUpdateStock sku p.quantity then []
              else ["stock update"]) ++
             (if env.magentoUpdatePrice sku p.retail_price then []
              else ["price update"]) ++
             (if (if promoActive p then
                   env.magentoUpdateSpecialPrice sku (p.promo_price.getD 0)
                  else true) then []
              else ["special price update"]))) := by
  by_cases hpa : promoActive p <;>
    by_cases hs : env.magentoUpdateStock sku p.quantity <;>
      by_cases hpr : env.magentoUpdatePrice sku p.retail_price <;>
        by_cases hsp : env.magentoUpdateSpecialPrice sku (p.promo_price.getD 0) <;>
          simp [sync_product, ho, hm, hpa, hs, hpr, hsp]

/-- Every call issued by `sync_product` carries the sku it was
invoked with. -/
theorem sync_product_calls_sku (env : SyncEnv) (sku : String) :
    ∀ c ∈ (sync_product env sku).2, ProductCall.sku c = sku := by
  intro c hc
  rcases ho : env.odooGetProductBySku sku with _ | p
  · simp [sync_product, ho] at hc
    simp [hc, ProductCall.sku]
  · rcases hm : env.magentoGetProductBySku sku with _ | m
    · simp [sync_product, ho, hm] at hc
      rcases hc with h | h <;> simp [h, ProductCall.sku]
    · have htr := (sync_product_found_behavior env sku p m ho hm).1
      rw [htr] at hc
      by_cases hpa : promoActive p
      · simp [hpa] at hc
        rcases hc with h | h | h | h | h <;> simp [h, ProductCall.sku]
      · simp [hpa] at hc
        rcases hc with h | h | h | h <;> simp [h, ProductCall.sku]

/-- C1: if the ERP fetch returns no product, `sync_product` fails
with a "not found in Odoo" message and issues no Magento call at all;
if the ERP fetch succeeds but the Magento fetch returns no product,
it fails with a "not found in Magento" message and issues no stock,
price, or special-price update call. -/
theorem sync_product_not_found_stages (env : SyncEnv) (sku : String) :
    (env.odooGetProductBySku sku = none →
      (sync_product env sku).1.success = false ∧
      (sync_product env sku).1.message =
        "Product with SKU " ++ sku ++ " not found in Odoo" ∧
      (sync_product env sku).2 = [ProductCall.odooGetProduct sku] ∧
      ∀ c ∈ (sync_product env sku).2, c.isMagento = false) ∧
    (∀ p, env.odooGetProductBySku sku = some p →
      env.magentoGetProductBySku sku = none →
      (sync_product env sku).1.success = false ∧
      (sync_product env sku).1.message =
        "Product with SKU " ++ sku ++ " not found in Magento" ∧
      ∀ c ∈ (sync_product env sku).2, c.isUpdateCall = false) := by
  constructor
  · intro ho
    simp [sync_product, ho, ProductCall.isMagento]
  · intro p ho hm
    simp [sync_product, ho, hm, ProductCall.isUpdateCall]

def envC1a : SyncEnv :=
  { odooGetProductBySku := fun _ => none
    odooAllProducts := some []
    magentoGetProductBySku := fun _ => none
    magentoUpdateStock := fun _ _ => true
    magentoUpdatePrice := fun _ _ => true
    magentoUpdateSpecialPrice := fun _ _ => true }

def prodC1 : OdooProduct :=
  { id := 7, name := "Widget", sku := "W1", retail_price := 10,
    promo_price := none, quantity := 3, type := "product" }

def envC1b : SyncEnv :=
  { odooGetProductBySku := fun _ => some prodC1
    odooAllProducts := some [prodC1]
    magentoGetProductBySku := fun _ => none
    magentoUpdateStock := fun _ _ => true
    magentoUpdatePrice := fun _ _ => true
    magentoUpdateSpecialPrice := fun _ _ => true }

/-- C1 witness: both stages exercised on concrete environments. -/
theorem sync_product_not_found_stages_witness :
    (envC1a.odooGetProductBySku "W1" = none ∧
      (sync_product envC1a "W1").1.success = false ∧
      (sync_product envC1a "W1").2 = [ProductCall.odooGetProduct "W1"]) ∧
    (envC1b.odooGetProductBySku "W1" = some prodC1 ∧
      envC1b.magentoGetProductBySku "W1" = none ∧
      (sync_product envC1b "W1").1.message =
        "Product with SKU W1 not found in Magento") := by
  have h1 := (sync_product_not_found_stages envC1a "W1").1 rfl
  have h2 := (sync_product_not_found_stages envC1b "W1").2 prodC1 rfl rfl
  exact ⟨⟨rfl, h1.1, h1.2.2.1⟩, ⟨rfl, rfl, h2.2.1⟩⟩

/-- C4: when both systems return the product, `sync_product` issues
the stock, price and (conditionally) special-price updates in that
fixed order, issues all of them even when an earlier one fails,
succeeds exactly when every attempted update succeeded, and on
failure its single message itemizes exactly the failed operations. -/
theorem sync_product_update_sequence (env : SyncEnv) (sku : String)
    (p : OdooProduct) (m : MagentoProduct)
    (ho : env.odooGetProductBySku sku = some p)
    (hm : env.magentoGetProductBySku sku = some m) :
    (sync_product env sku).2 =
      [ProductCall.odooGetProduct sku,
       ProductCall.magentoGetProduct sku,
       ProductCall.magentoUpdateStock sku p.quantity,
       ProductCall.magentoUpdatePrice sku p.retail_price] ++
      (if promoActive p then
        [ProductCall.magentoUpdateSpecialPrice sku (p.promo_price.getD 0)]
       else []) ∧
    (sync_product env sku).1.success =
      (env.magentoUpdateStock sku p.quantity &&
       env.magentoUpdatePrice sku p.retail_price &&
       (if promoActive p then
         env.magentoUpdateSpecialPrice sku (p.promo_price.getD 0)
        else true)) ∧
    ((sync_product env sku).1.success = false →
      (sync_product env sku).1.message =
        "Product " ++ sku ++ " synchronization failed for: " ++
          String.intercalate ", "
            ((if env.magentoUpdateStock sku p.quantity then []
              else ["stock update"]) ++
             (if env.magentoUpdatePrice sku p.retail_price then []
              else ["price update"]) ++
             (if (if promoActive p then
                   env.magentoUpdateSpecialPrice sku (p.promo_price.getD 0)
                  else true) then []
              else ["special price update"]))) :=
  sync_product_found_behavior env sku p m ho hm

def prodC4 : OdooProduct :=
  { id := 4, name := "Gadget", sku := "G1", retail_price := 10,
    promo_price := some 8, quantity := 2, type := "product" }

def envC4 : SyncEnv :=
  { odooGetProductBySku := fun _ => some prodC4
    odooAllProducts := some [prodC4]
    magentoGetProductBySku := fun s => some { sku := s }
    magentoUpdateStock := fun _ _ => false
    magentoUpdatePrice := fun _ _ => true
    magentoUpdateSpecialPrice := fun _ _ => true }

/-- C4 witness: with a failing stock update and a promo price below
retail, the trace holds all three updates in order, the overall
result fails, and the message names exactly the stock update. -/
theorem sync_product_update_sequence_witness :
    (sync_product envC4 "G1").2 =
      [ProductCall.odooGetProduct "G1",
       ProductCall.magentoGetProduct "G1",
       ProductCall.magentoUpdateStock "G1" 2,
       ProductCall.magentoUpdatePrice "G1" 10,
       ProductCall.magentoUpdateSpecialPrice "G1" 8] ∧
    (sync_product envC4 "G1").1.success = false ∧
    (sync_product envC4 "G1").1.message =
      "Product G1 synchronization failed for: stock update" := by
  have h := sync_product_update_sequence envC4 "G1" prodC4
    { sku := "G1" } rfl rfl
  refine ⟨?_, ?_, ?_⟩
  · rw [h.1]; decide
  · rw [h.2.1]; decide
  · have hf : (sync_product envC4 "G1").1.success = false := by
      rw [h.2.1]; decide
    rw [h.2.2 hf]; decide

def prodC3 : OdooProduct :=
  { id := 3, name := "Zero promo", sku := "P0", retail_price := 10,
    promo_price := some 0, quantity := 5, type := "product" }

def envC3 : SyncEnv :=
  { odooGetProductBySku := fun _ => some prodC3
    odooAllProducts := some [prodC3]
    magentoGetProductBySku := fun s => some { sku := s }
    magentoUpdateStock := fun _ _ => true
    magentoUpdatePrice := fun _ _ => true
    magentoUpdateSpecialPrice := fun _ _ => true }

/-- C3 counterexample: a product whose `promo_price` is set to `0`
with `retail_price = 10` has a set promo price strictly below retail,
both systems return the product, yet `sync_product` issues no
special-price update — Python truthiness also rejects a zero promo
price, so "set and strictly less than retail" is not sufficient. -/
theorem sync_product_special_price_iff_cex :
    envC3.odooGetProductBySku "P0" = some prodC3 ∧
    envC3.magentoGetProductBySku "P0" = some { sku := "P0" } ∧
    prodC3.promo_price = some 0 ∧
    (0 : ℚ) < prodC3.retail_price ∧
    attemptsSpecial (sync_product envC3 "P0").2 = false := by
  refine ⟨rfl, rfl, rfl, by norm_num [prodC3], ?_⟩
  decide

/-- C3 (amended): when both systems return the product, the
special-price update is attempted iff `promo_price` is set, nonzero,
and strictly less than `retail_price`; when it is not attempted the
overall success is exactly the conjunction of the stock-update and
price-update outcomes. -/
theorem sync_product_special_price_condition (env : SyncEnv)
    (sku : String) (p : OdooProduct) (m : MagentoProduct)
    (ho : env.odooGetProductBySku sku = some p)
    (hm : env.magentoGetProductBySku sku = some m) :
    (attemptsSpecial (sync_product env sku).2 = true ↔
      ∃ q, p.promo_price = some q ∧ q ≠ 0 ∧ q < p.retail_price) ∧
    (promoActive p = false →
      (sync_product env sku).1.success =
        (env.magentoUpdateStock sku p.quantity &&
         env.magentoUpdatePrice sku p.retail_price)) := by
  have h := sync_product_found_behavior env sku p m ho hm
  constructor
  · rw [h.1]
    by_cases hpa : promoActive p
    · simp [attemptsSpecial, hpa]
      rcases hq : p.promo_price with _ | q
      · rw [promoActive, hq] at hpa; simp at hpa
      · rw [promoActive, hq] at hpa
        simp at hpa
        exact ⟨q, rfl, hpa.1, hpa.2⟩
    · simp [attemptsSpecial, hpa]
      rintro q hq hq0
      rcases hq2 : p.promo_price with _ | q2
      · rw [hq2] at hq; simp at hq
      · rw [hq2] at hq
        rw [promoActive, hq2] at hpa
        simp at hq
        subst hq
        simp [hq0] at hpa
        exact hpa
  · intro hpa
    rw [h.2.1, hpa]
    simp

def prodC3w : OdooProduct :=
  { id := 8, name := "Promo", sku := "P8", retail_price := 10,
    promo_price := some 8, quantity := 5, type := "product" }

def envC3w : SyncEnv :=
  { odooGetProductBySku := fun _ => some prodC3w
    odooAllProducts := some [prodC3w]
    magentoGetProductBySku := fun s => some { sku := s }
    magentoUpdateStock := fun _ _ => true
    magentoUpdatePrice := fun _ _ => true
    magentoUpdateSpecialPrice := fun _ _ => true }

/-- C3 witness: with `promo_price = 8` and `retail_price = 10` the
special-price update is attempted. -/
theorem sync_product_special_price_condition_witness :
    envC3w.odooGetProductBySku "P8" = some prodC3w ∧
    attemptsSpecial (sync_product envC3w "P8").2 = true := by
  have h := (sync_product_special_price_condition envC3w "P8" prodC3w
    { sku := "P8" } rfl rfl).1
  exact ⟨rfl, h.mpr ⟨8, rfl, by norm_num, by norm_num [prodC3w]⟩⟩

/-- One `sync_all_products` loop iteration never touches the upfront
total. -/
theorem sync_all_step_total (env : SyncEnv)
    (acc : BatchResults × List ProductCall) (p : OdooProduct) :
    (sync_all_step env acc p).1.total = acc.1.total := by
  by_cases h : p.sku = "" <;>
    by_cases h2 : (sync_product env p.sku).1.success <;>
      simp [sync_all_step, h, h2]

/-- One `sync_all_products` loop iteration adds exactly one to
`successful + failed`. -/
theorem sync_all_step_sum (env : SyncEnv)
    (acc : BatchResults × List ProductCall) (p : OdooProduct) :
    (sync_all_step env acc p).1.successful +
        (sync_all_step env acc p).1.failed =
      acc.1.successful + acc.1.failed + 1 := by
  by_cases h : p.sku = "" <;>
    by_cases h2 : (sync_product env p.sku).1.success <;>
      simp [sync_all_step, h, h2] <;> omega

/-- One `sync_all_products` loop iteration adds one to `failed` for an
empty sku and never decreases `failed`. -/
theorem sync_all_step_failed (env : SyncEnv)
    (acc : BatchResults × List ProductCall) (p : OdooProduct) :
    acc.1.failed + (if p.sku = "" then 1 else 0) ≤
      (sync_all_step env acc p).1.failed := by
  by_cases h : p.sku = "" <;>
    by_cases h2 : (sync_product env p.sku).1.success <;>
      simp [sync_all_step, h, h2]

/-- One `sync_all_products` loop iteration appends only calls whose
sku is nonempty (an empty-sku product appends nothing). -/
theorem sync_all_step_trace (env : SyncEnv)
    (acc : BatchResults × List ProductCall) (p : OdooProduct)
    (h : ∀ c ∈ acc.2, ProductCall.sku c ≠ "") :
    ∀ c ∈ (sync_all_step env acc p).2, ProductCall.sku c ≠ "" := by
  intro c hc
  by_cases hp : p.sku = ""
  · rw [show (sync_all_step env acc p).2 = acc.2 from by
      simp [sync_all_step, hp]] at hc
    exact h c hc
  · have h22 : (sync_all_step env acc p).2 =
        acc.2 ++ (sync_product env p.sku).2 := by
      by_cases h2 : (sync_product env p.sku).1.success <;>
        simp [sync_all_step, hp, h2]
    rw [h22] at hc
    rcases List.mem_append.1 hc with h1 | h1
    · exact h c h1
    · rw [sync_product_calls_sku env p.sku c h1]
      exact hp

/-- Invariants of the `sync_all_products` fold: the upfront total is
never touched, every listed product adds exactly one to
`successful + failed`, every empty-sku product adds one to `failed`,
and only calls carrying a nonempty sku are appended to the trace. -/
theorem sync_all_foldl_spec (env : SyncEnv) (products : List OdooProduct)
    (acc : BatchResults × List ProductCall) :
    (products.foldl (sync_all_step env) acc).1.total = acc.1.total ∧
    (products.foldl (sync_all_step env) acc).1.successful +
        (products.foldl (sync_all_step env) acc).1.failed =
      acc.1.successful + acc.1.failed + products.length ∧
    acc.1.failed + (products.filter (fun p => p.sku = "")).length ≤
      (products.foldl (sync_all_step env) acc).1.failed ∧
    ((∀ c ∈ acc.2, ProductCall.sku c ≠ "") →
      ∀ c ∈ (products.foldl (sync_all_step env) acc).2,
        ProductCall.sku c ≠ "") := by
  induction products generalizing acc with
  | nil => simp
  | cons p ps ih =>
    have hstep := ih (sync_all_step env acc p)
    simp only [List.foldl_cons, List.filter_cons, List.length_cons]
    refine ⟨?_, ?_, ?_, ?_⟩
    · rw [hstep.1, sync_all_step_total]
    · rw [hstep.2.1, sync_all_step_sum]
      omega
    · have h1 := hstep.2.2.1
      have h2 := sync_all_step_failed env acc p
      by_cases hp : p.sku = "" <;> simp [hp] at h2 ⊢ <;> omega
    · intro h
      exact hstep.2.2.2 (sync_all_step_trace env acc p h)

/-- C5: over the N listed ERP products of which K have an empty sku,
`sync_all_products` reports `total = N`, `successful + failed = N`,
`failed ≥ K`, and no client call is ever issued with an empty sku
(empty-sku products are tallied without a `sync_product` attempt). -/
theorem sync_all_products_counts (env : SyncEnv) :
    (sync_all_products env).1.results.total =
      (get_all_products env none).length ∧
    (sync_all_products env).1.results.successful +
        (sync_all_products env).1.results.failed =
      (get_all_products env none).length ∧
    ((get_all_products env none).filter
        (fun p => p.sku = "")).length ≤
      (sync_all_products env).1.results.failed ∧
    ∀ c ∈ (sync_all_products env).2, ProductCall.sku c ≠ "" := by
  have h := sync_all_foldl_spec env (get_all_products env none)
    ({ total := (get_all_products env none).length, successful := 0,
       failed := 0, failed_skus := [] }, [])
  refine ⟨?_, ?_, ?_, ?_⟩
  · simpa [sync_all_products] using h.1
  · simpa [sync_all_products] using h.2.1
  · simpa [sync_all_products] using h.2.2.1
  · simpa [sync_all_products] using h.2.2.2 (by simp)

def prodC5a : OdooProduct :=
  { id := 11, name := "No sku", sku := "", retail_price := 5,
    promo_price := none, quantity := 1, type := "product" }

def prodC5b : OdooProduct :=
  { id := 12, name := "Has sku", sku := "S1", retail_price := 5,
    promo_price := none, quantity := 1, type := "product" }

def envC5 : SyncEnv :=
  { odooGetProductBySku := fun _ => none
    odooAllProducts := some [prodC5a, prodC5b]
    magentoGetProductBySku := fun _ => none
    magentoUpdateStock := fun _ _ => true
    magentoUpdatePrice := fun _ _ => true
    magentoUpdateSpecialPrice := fun _ _ => true }

/-- C5 witness: a two-product listing with one empty sku yields
`total = 2`, `successful + failed = 2` and `failed ≥ 1`, and the
batch trace never mentions the empty sku. -/
theorem sync_all_products_counts_witness :
    (sync_all_products envC5).1.results.total = 2 ∧
    (sync_all_products envC5).1.results.successful +
        (sync_all_products envC5).1.results.failed = 2 ∧
    1 ≤ (sync_all_products envC5).1.results.failed ∧
    ProductCall.odooGetProduct "" ∉ (sync_all_products envC5).2 := by
  have h := sync_all_products_counts envC5
  have hlen : (get_all_products envC5 none).length = 2 := by decide
  have hk : ((get_all_products envC5 none).filter
      (fun p => p.sku = "")).length = 1 := by decide
  refine ⟨hlen ▸ h.1, hlen ▸ h.2.1, hk ▸ h.2.2.1, ?_⟩
  intro hmem
  exact (h.2.2.2 (ProductCall.odooGetProduct "") hmem) rfl

/-- One `sync_new_orders` loop iteration never touches the upfront
total. -/
theorem sync_new_step_total (env : OrderEnv) (acc : OrderBatchResults)
    (o : MagentoOrder) :
    (sync_new_step env acc o).total = acc.total := by
  by_cases h : o.entity_id.getD "" = "" <;>
    by_cases h2 : (sync_order env (o.entity_id.getD "")).success <;>
      simp [sync_new_step, h, h2]

/-- One `sync_new_orders` loop iteration adds exactly one to
`successful + failed`. -/
theorem sync_new_step_sum (env : OrderEnv) (acc : OrderBatchResults)
    (o : MagentoOrder) :
    (sync_new_step env acc o).successful +
        (sync_new_step env acc o).failed =
      acc.successful + acc.failed + 1 := by
  by_cases h : o.entity_id.getD "" = "" <;>
    by_cases h2 : (sync_order env (o.entity_id.getD "")).success <;>
      simp [sync_new_step, h, h2] <;> omega

/-- Invariants of the `sync_new_orders` fold: the upfront total is
never touched and every listed order adds exactly one to
`successful + failed`. -/
theorem sync_new_foldl_spec (env : OrderEnv) (orders : List MagentoOrder)
    (acc : OrderBatchResults) :
    (orders.foldl (sync_new_step env) acc).total = acc.total ∧
    (orders.foldl (sync_new_step env) acc).successful +
        (orders.foldl (sync_new_step env) acc).failed =
      acc.successful + acc.failed + orders.length := by
  induction orders generalizing acc with
  | nil => simp
  | cons o os ih =>
    have hstep := ih (sync_new_step env acc o)
    simp only [List.foldl_cons, List.length_cons]
    refine ⟨?_, ?_⟩
    · rw [hstep.1, sync_new_step_total]
    · rw [hstep.2, sync_new_step_sum]
      omega

/-- C6: whenever the initial listing returns, both batch operations
report `success = true` at the outer level while tallying every
listed item inside the nested results payload
(`successful + failed = total`, so no single failure aborts the
iteration); per-item failure counts live only in that payload. -/
theorem batch_outer_success (senv : SyncEnv) (oenv : OrderEnv) :
    (sync_all_products senv).1.success = true ∧
    (sync_all_products senv).1.results.total =
      (get_all_products senv none).length ∧
    (sync_all_products senv).1.results.successful +
        (sync_all_products senv).1.results.failed =
      (sync_all_products senv).1.results.total ∧
    (sync_new_orders oenv).success = true ∧
    (sync_new_orders oenv).results.total = (get_new_orders oenv).length ∧
    (sync_new_orders oenv).results.successful +
        (sync_new_orders oenv).results.failed =
      (sync_new_orders oenv).results.total := by
  have h1 := sync_all_foldl_spec senv (get_all_products senv none)
    ({ total := (get_all_products senv none).length, successful := 0,
       failed := 0, failed_skus := [] }, [])
  have h2 := sync_new_foldl_spec oenv (get_new_orders oenv)
    { total := (get_new_orders oenv).length, successful := 0,
      failed := 0, failed_orders := [], synced_orders := [] }
  have ha := h1.1
  have hb := h1.2.1
  have hc := h2.1
  have hd := h2.2
  simp only [sync_all_products] at ha hb
  simp only [sync_new_orders] at hc hd
  refine ⟨rfl, ?_, ?_, rfl, ?_, ?_⟩ <;>
    simp only [sync_all_products, sync_new_orders] <;> omega

/-- A `filterMap` over a list on which the function is everywhere
`none` yields the empty list. -/
theorem filterMap_eq_nil_of_forall_none {α β : Type} {f : α → Option β} :
    ∀ {l : List α}, (∀ a ∈ l, f a = none) → l.filterMap f = []
  | [], _ => rfl
  | a :: l, h => by
      have ha := h a (List.mem_cons_self a l)
      rw [List.filterMap_cons, ha]
      exact filterMap_eq_nil_of_forall_none
        fun b hb => h b (List.mem_cons_of_mem a hb)

/-- C2: when every line sku resolves to no ERP product,
`create_sale_order` returns no order id and never issues the remote
`sale.order` create call. -/
theorem create_sale_order_all_unresolvable (env : OdooEnv)
    (cd : CustomerData) (lines : List OrderLine) (eid : String)
    (h : ∀ l ∈ lines, env.searchProductBySku l.sku = []) :
    (create_sale_order env cd lines eid).1 = none ∧
    ∀ v, OdooCall.createSaleOrder v ∉ (create_sale_order env cd lines eid).2 := by
  have hnil : lines.filterMap (resolveLine env) = [] :=
    filterMap_eq_nil_of_forall_none fun l hl => by
      simp [resolveLine, h l hl]
  constructor
  · rcases hps : env.searchPartnerByEmail cd.email with _ | ⟨pid, rest⟩ <;>
      simp [create_sale_order, hps, hnil]
  · intro v hv
    rcases hps : env.searchPartnerByEmail cd.email with _ | ⟨pid, rest⟩ <;>
      simp [create_sale_order, hps, hnil, get_country_id] at hv

def envC2 : OdooEnv :=
  { searchPartnerByEmail := fun _ => [41]
    createPartner := fun _ => 42
    searchProductBySku := fun _ => []
    searchCountryByCode := fun _ => [21]
    createSaleOrder := fun _ => 99 }

def lineC2 : OrderLine := { sku := "GONE", quantity := 1, price_unit := 5 }

def cdC2 : CustomerData :=
  { name := "A B", email := "a@b.c", phone := "1", street := "s",
    city := "c", zip := "z", country_code := "us" }

/-- C2 witness: a one-line order whose sku resolves to nothing yields
no order id and a trace without the remote create call. -/
theorem create_sale_order_all_unresolvable_witness :
    (∀ l ∈ [lineC2], envC2.searchProductBySku l.sku = []) ∧
    (create_sale_order envC2 cdC2 [lineC2] "M100").1 = none ∧
    OdooCall.createSaleOrder
        { partner_id := 41, client_order_ref := "M100", order_line := [] } ∉
      (create_sale_order envC2 cdC2 [lineC2] "M100").2 := by
  have h := create_sale_order_all_unresolvable envC2 cdC2 [lineC2] "M100"
    (by intro l hl; rfl)
  exact ⟨fun l hl => rfl, h.1,
    h.2 { partner_id := 41, client_order_ref := "M100", order_line := [] }⟩

/-- C10: when no ERP partner matches the customer's email and every
line sku is unresolvable, `create_sale_order` still creates the new
partner record first — the full call trace is the partner search,
the country search, the partner create, then one product search per
line and nothing else — and then returns no order id, leaving the ERP
customer state changed although order creation failed. -/
theorem create_sale_order_partner_created_on_failure (env : OdooEnv)
    (cd : CustomerData) (lines : List OrderLine) (eid : String)
    (hp : env.searchPartnerByEmail cd.email = [])
    (h : ∀ l ∈ lines, env.searchProductBySku l.sku = []) :
    (create_sale_order env cd lines eid).1 = none ∧
    (create_sale_order env cd lines eid).2 =
      [OdooCall.searchPartner cd.email,
       OdooCall.searchCountry (pyUpper cd.country_code),
       OdooCall.createPartner (partnerValsOf env cd)] ++
        lines.map (fun l => OdooCall.searchProduct l.sku) := by
  have hnil : lines.filterMap (resolveLine env) = [] :=
    filterMap_eq_nil_of_forall_none fun l hl => by
      simp [resolveLine, h l hl]
  constructor
  · simp [create_sale_order, hp, hnil]
  · simp [create_sale_order, hp, hnil, get_country_id]

def envC10 : OdooEnv :=
  { searchPartnerByEmail := fun _ => []
    createPartner := fun _ => 42
    searchProductBySku := fun _ => []
    searchCountryByCode := fun _ => [21]
    createSaleOrder := fun _ => 99 }

/-- C10 witness: on a concrete environment with no matching partner
and one unresolvable line, the order id is absent while the partner
create call is in the trace. -/
theorem create_sale_order_partner_created_on_failure_witness :
    envC10.searchPartnerByEmail cdC2.email = [] ∧
    (create_sale_order envC10 cdC2 [lineC2] "M101").1 = none ∧
    (create_sale_order envC10 cdC2 [lineC2] "M101").2 =
      [OdooCall.searchPartner "a@b.c", OdooCall.searchCountry "US",
       OdooCall.createPartner (partnerValsOf envC10 cdC2),
       OdooCall.searchProduct "GONE"] := by
  have h := create_sale_order_partner_created_on_failure envC10 cdC2
    [lineC2] "M101" rfl (by intro l hl; rfl)
  refine ⟨rfl, h.1, ?_⟩
  rw [h.2]
  decide

/-- C7: starting from a fresh client, the first token request issues
a credential exchange whose token is cached with expiry
`t1 + 3600` (the default lifetime); a second request strictly before
that expiry issues no exchange and returns the cached token, while a
request at or after the expiry issues a second exchange. -/
theorem get_token_caching (t1 t2 t3 : ℚ) (tok : String)
    (ex2 ex3 : Option String) (htok : tok ≠ "") :
    ((get_token initMagentoAuth t1 (some tok)).1 = some tok ∧
      (get_token initMagentoAuth t1 (some tok)).2.2 = true ∧
      (get_token initMagentoAuth t1 (some tok)).2.1.token_expiry =
        t1 + 3600) ∧
    (t2 < t1 + 3600 →
      get_token (get_token initMagentoAuth t1 (some tok)).2.1 t2 ex2 =
        (some tok, (get_token initMagentoAuth t1 (some tok)).2.1, false)) ∧
    (t1 + 3600 ≤ t3 →
      (get_token (get_token initMagentoAuth t1 (some tok)).2.1 t3 ex3).2.2 =
        true) := by
  have h1 : get_token initMagentoAuth t1 (some tok) =
      (some tok,
       { token := some tok, token_expiry := t1 + 3600,
         token_lifetime := 3600 }, true) := by
    simp [get_token, initMagentoAuth, tokenTruthy]
  refine ⟨⟨by rw [h1], by rw [h1], by rw [h1]⟩, ?_, ?_⟩
  · intro h2
    rw [h1]
    simp [get_token, tokenTruthy, htok, h2]
  · intro h3
    rw [h1]
    have hlt : ¬ t3 < t1 + 3600 := not_lt.mpr h3
    simp only [get_token, tokenTruthy]
    rw [if_neg (by simp [hlt])]
    cases ex3 <;> simp

/-- C7 witness: exchange at time 0, cached reuse at 1800, forced
second exchange at 4000. -/
theorem get_token_caching_witness :
    get_token (get_token initMagentoAuth 0 (some "tk")).2.1 1800 none =
      (some "tk", (get_token initMagentoAuth 0 (some "tk")).2.1, false) ∧
    (get_token (get_token initMagentoAuth 0 (some "tk")).2.1 4000
      (some "tk2")).2.2 = true := by
  have h := get_token_caching 0 1800 4000 "tk" none (some "tk2") (by decide)
  exact ⟨h.2.1 (by norm_num), h.2.2 (by norm_num)⟩

/-- C8: `get_new_orders` is exactly the items of the "pending" query
followed by the items of the "processing" query — plain concatenation
with no deduplication or reordering — and a failed query or a page
without items contributes nothing. -/
theorem get_new_orders_concat (env : OrderEnv) :
    get_new_orders env =
      pageItems (get_orders env 10 1 (some "pending")) ++
        pageItems (get_orders env 10 1 (some "processing")) ∧
    pageItems none = [] ∧
    pageItems (some { items := none }) = [] :=
  ⟨rfl, rfl, rfl⟩

/-- C9: the customer name assembled by `sync_order` for an order
whose billing address has firstname `f` and lastname `l` is exactly
`f ++ " " ++ l` stripped of leading and trailing whitespace. -/
theorem sync_order_customer_name (o : MagentoOrder) (b : BillingAddress)
    (f l : String) (cd : CustomerData)
    (hb : o.billing_address = some b)
    (hf : b.firstname = some f) (hl : b.lastname = some l)
    (hcd : extract_customer_data o = some cd) :
    cd.name = pyStrip (f ++ " " ++ l) := by
  rw [extract_customer_data, hb] at hcd
  simp only [Option.getD_some] at hcd
  rcases hst : extract_street b with _ | st <;> rw [hst] at hcd
  · simp at hcd
  · simp only [Option.some.injEq] at hcd
    rw [← hcd]
    simp [hf, hl]

def billC9 : BillingAddress :=
  { firstname := some "A", lastname := some "B", telephone := some "1",
    street := some (Sum.inl ["Main St"]), city := some "X",
    postcode := some "9", country_id := some "US" }

def orderC9 : MagentoOrder :=
  { entity_id := some "77", billing_address := some billC9,
    customer_email := some "a@b.c", items := some [] }

def cdC9 : CustomerData :=
  { name := "A B", email := "a@b.c", phone := "1", street := "Main St",
    city := "X", zip := "9", country_code := "US" }

def billC9e : BillingAddress :=
  { firstname := some "", lastname := some "B", telephone := none,
    street := none, city := none, postcode := none, country_id := none }

def orderC9e : MagentoOrder :=
  { entity_id := some "78", billing_address := some billC9e,
    customer_email := none, items := none }

def cdC9e : CustomerData :=
  { name := "B", email := "", phone := "", street := "", city := "",
    zip := "", country_code := "" }

/-- C9 witness: firstname `"A"` and lastname `"B"` give exactly
`"A B"`; an empty firstname gives just `"B"`. -/
theorem sync_order_customer_name_witness :
    extract_customer_data orderC9 = some cdC9 ∧ cdC9.name = "A B" ∧
    extract_customer_data orderC9e = some cdC9e ∧ cdC9e.name = "B" := by
  have h1 := sync_order_customer_name orderC9 billC9 "A" "B" cdC9
    rfl rfl rfl (by decide)
  have h2 := sync_order_customer_name orderC9e billC9e "" "B" cdC9e
    rfl rfl rfl (by decide)
  exact ⟨by decide, h1.trans (by decide), by decide, h2.trans (by decide)⟩

end OdooMagento
